import Mathlib

/-!
Shallow embedding of the Flute repository's persistence layer
(src/server/src/models/books.py).

The source file declares the SQLAlchemy/SQLite schema for books, chapters,
tokens, the inverted index (book_vocab), per-token learning progress
(token_progress) and per-book totals (book_totals), together with the
statement builder `BookTotals.upsert_stmt`.

Modelling decisions, faithful to the source:
* Each table row becomes a structure whose fields are the mapped columns.
  SQL INTEGER / SMALLINT columns become `Int`; nullable columns become
  `Option _`; `DateTime` columns become `Option Int` (an epoch stamp; no
  claim touches them).  A table is a `List` of rows.
* CHECK constraints are evaluated with SQLite semantics: a constraint is
  violated only when its expression evaluates to FALSE, so a NULL result
  lets the row through.  We embed the relevant fragment of SQL's
  three-valued logic (`Option Bool`, `none` = SQL NULL).
* UNIQUE indexes and primary keys gate the insert operations: an insert
  whose new row collides on a primary key or a unique index fails
  (returns `none`) and leaves the table unchanged.
* Foreign-key *enforcement* is not modelled (SQLite leaves it off by
  default and no claim depends on it); the cascading behaviour that the
  spec prescribes for book deletion is modelled explicitly below.
-/

/-! ## Enumerations (class TokenKind / class LearningStatus, IntEnum) -/

inductive TokenKind where
  | WORD
  | PHRASE
deriving DecidableEq, Repr

/-- Integer code of a `TokenKind` member: WORD = 1, PHRASE = 2. -/
def TokenKind.value : TokenKind → Int
  | .WORD => 1
  | .PHRASE => 2

inductive LearningStatus where
  | LEARNING
  | KNOWN
  | IGNORE
deriving DecidableEq, Repr

/-- Integer code of a `LearningStatus` member:
LEARNING = 1, KNOWN = 2, IGNORE = 3. -/
def LearningStatus.value : LearningStatus → Int
  | .LEARNING => 1
  | .KNOWN => 2
  | .IGNORE => 3

/-- `NUM_LEARNING_STAGES = 5` from the source. -/
def NUM_LEARNING_STAGES : Int := 5

/-! ## SQL three-valued logic (the fragment the CHECK constraints use) -/

/-- SQL three-valued OR: `none` stands for SQL NULL. -/
def sqlOr : Option Bool → Option Bool → Option Bool
  | some true, _ => some true
  | _, some true => some true
  | some false, some false => some false
  | _, _ => none

/-- SQL `x BETWEEN lo AND hi` on a nullable integer operand. -/
def sqlBetween (x : Option Int) (lo hi : Int) : Option Bool :=
  x.map (fun v => decide (lo ≤ v ∧ v ≤ hi))

/-- SQLite accepts a row under a CHECK constraint unless the constraint
expression evaluates to FALSE; TRUE and NULL both pass. -/
def checkPasses (b : Option Bool) : Bool :=
  b ≠ some false

/-! ## Row types (one structure per mapped class) -/

/-- Row of table `books` (class Book). -/
structure BookRow where
  id : Int
  language_id : Int
  title : String
  cover_art_filepath : Option String
  source : Option String
  is_archived : Bool
  last_visited_chapter : Option Int
  last_visited_word_index : Option Int
  last_read : Option Int
deriving DecidableEq, Repr

/-- Row of table `chapters` (class Chapter). -/
structure ChapterRow where
  id : Int
  book_id : Int
  chapter_number : Int
  content : String
  word_count : Int
deriving DecidableEq, Repr

/-- Row of table `tokens` (class Token). -/
structure TokenRow where
  id : Int
  language_id : Int
  norm : String
  kind : Int
deriving DecidableEq, Repr

/-- Row of table `book_vocab` (class BookVocab);
primary key is the pair (book_id, token_id). -/
structure BookVocabRow where
  book_id : Int
  token_id : Int
  token_count : Int
deriving DecidableEq, Repr

/-- Row of table `token_progress` (class TokenProgress);
`learning_stage` and `translation` are nullable. -/
structure TokenProgressRow where
  token_id : Int
  status : Int
  learning_stage : Option Int
  translation : Option String
deriving DecidableEq, Repr

/-- Row of table `book_totals` (class BookTotals). -/
structure BookTotalsRow where
  book_id : Int
  total_tokens : Int
  total_types : Int
deriving DecidableEq, Repr

/-! ## CHECK constraints, written from `__table_args__` in the source -/

/-- `CheckConstraint("kind IN (1, 2)", name="ck_token_kind_valid")`.
`kind` is NOT NULL, so the expression is never NULL. -/
def ck_token_kind_valid (r : TokenRow) : Option Bool :=
  some (decide (r.kind = 1 ∨ r.kind = 2))

/-- `CheckConstraint("status IN (1, 2, 3)", name="ck_token_progress_status_valid")`. -/
def ck_token_progress_status_valid (r : TokenProgressRow) : Option Bool :=
  some (decide (r.status = 1 ∨ r.status = 2 ∨ r.status = 3))

/-- `CheckConstraint("(status != 1) OR (learning_stage BETWEEN 1 AND 5)",
name="ck_token_progress_learning_stage_valid")`; `learning_stage` is
nullable, so the right disjunct can be NULL. -/
def ck_token_progress_learning_stage_valid (r : TokenProgressRow) : Option Bool :=
  sqlOr (some (decide (r.status ≠ 1))) (sqlBetween r.learning_stage 1 5)

/-- A tokens row the database will accept (all CHECK constraints pass). -/
def tokenRowOk (r : TokenRow) : Bool :=
  checkPasses (ck_token_kind_valid r)

/-- A token_progress row the database will accept. -/
def tokenProgressRowOk (r : TokenProgressRow) : Bool :=
  checkPasses (ck_token_progress_status_valid r) &&
  checkPasses (ck_token_progress_learning_stage_valid r)

/-! ## Insert operations, gated by the schema's keys, unique indexes and
CHECK constraints.  `none` means the statement failed and the table is
unchanged. -/

/-- INSERT into `tokens`: gated by `ck_token_kind_valid`, the primary key
on `id`, and the unique index `ix_token_language_id_norm` on
(language_id, norm). -/
def insertToken (tbl : List TokenRow) (r : TokenRow) : Option (List TokenRow) :=
  if tokenRowOk r
      && tbl.all (fun x => x.id != r.id)
      && tbl.all (fun x => !(x.language_id == r.language_id && x.norm == r.norm))
  then some (tbl ++ [r]) else none

/-- The server-side default of column `tokens.kind`:
`server_default=str(TokenKind.WORD.value)`. -/
def Token.kind_server_default : Int := TokenKind.WORD.value

/-- INSERT into `tokens` that does not specify `kind`, so the column takes
its server-side default. -/
def insertTokenDefaultKind (tbl : List TokenRow) (id language_id : Int)
    (norm : String) : Option (List TokenRow) :=
  insertToken tbl ⟨id, language_id, norm, Token.kind_server_default⟩

/-- INSERT into `chapters`: gated by the primary key on `id` and the
unique index `ix_chapter_book_id_chapter_number` on
(book_id, chapter_number). -/
def insertChapter (tbl : List ChapterRow) (r : ChapterRow) : Option (List ChapterRow) :=
  if tbl.all (fun x => x.id != r.id)
      && tbl.all (fun x => !(x.book_id == r.book_id && x.chapter_number == r.chapter_number))
  then some (tbl ++ [r]) else none

/-- INSERT into `book_vocab`: gated only by the composite primary key
(book_id, token_id); the schema has no CHECK constraint on this table. -/
def insertBookVocab (tbl : List BookVocabRow) (r : BookVocabRow) :
    Option (List BookVocabRow) :=
  if tbl.all (fun x => !(x.book_id == r.book_id && x.token_id == r.token_id))
  then some (tbl ++ [r]) else none

/-- UPDATE of `book_vocab`: set `token_count` on the row keyed by
(book_id, token_id).  The key is untouched and the table carries no CHECK
constraint, so the statement always succeeds. -/
def updateBookVocabCount (tbl : List BookVocabRow) (book_id token_id cnt : Int) :
    List BookVocabRow :=
  tbl.map (fun x =>
    if x.book_id == book_id && x.token_id == token_id
    then { x with token_count := cnt } else x)

/-- INSERT into `token_progress`: gated by the primary key on `token_id`
and the two CHECK constraints. -/
def insertTokenProgress (tbl : List TokenProgressRow) (r : TokenProgressRow) :
    Option (List TokenProgressRow) :=
  if tokenProgressRowOk r && tbl.all (fun x => x.token_id != r.token_id)
  then some (tbl ++ [r]) else none

/-- The new values an UPDATE of `token_progress` writes into the row
keyed by `token_id`. -/
def setProgressCols (status : Int) (learning_stage : Option Int)
    (translation : Option String) (x : TokenProgressRow) : TokenProgressRow :=
  { x with status := status, learning_stage := learning_stage,
           translation := translation }

/-- UPDATE of `token_progress`: set the non-key columns of the row keyed
by `token_id`.  SQLite re-evaluates the CHECK constraints on each row the
statement modifies; a violation aborts the whole statement (table
unchanged).  An UPDATE that matches no row succeeds vacuously. -/
def updateTokenProgress (tbl : List TokenProgressRow) (token_id : Int)
    (status : Int) (learning_stage : Option Int) (translation : Option String) :
    Option (List TokenProgressRow) :=
  if tbl.all (fun x =>
      x.token_id != token_id ||
      tokenProgressRowOk (setProgressCols status learning_stage translation x))
  then some (tbl.map (fun x =>
      if x.token_id == token_id
      then setProgressCols status learning_stage translation x else x))
  else none

/-! ## BookTotals.upsert_stmt -/

/-- Effect on the `book_totals` table of executing the statement returned
by `BookTotals.upsert_stmt(book_id, total_tokens, total_types)`:
`insert(cls).values(...).on_conflict_do_update(index_elements=[book_id],
set_={total_tokens, total_types})` — insert the row when no row with this
`book_id` exists, otherwise overwrite both value columns of the existing
row.
`book_id` is the table's primary key, so at most one existing row can
conflict with the insert; scanning for the first conflicting row and
replacing its value columns, else appending, is exactly the statement's
effect on every reachable table. -/
def upsertBookTotals : List BookTotalsRow → Int → Int → Int → List BookTotalsRow
  | [], book_id, total_tokens, total_types =>
      [(⟨book_id, total_tokens, total_types⟩ : BookTotalsRow)]
  | x :: xs, book_id, total_tokens, total_types =>
      if x.book_id = book_id
      then (⟨book_id, total_tokens, total_types⟩ : BookTotalsRow) :: xs
      else x :: upsertBookTotals xs book_id total_tokens total_types

/-- Look up the `book_totals` row of a book. -/
def lookupTotals (tbl : List BookTotalsRow) (book_id : Int) : Option BookTotalsRow :=
  tbl.find? (fun x => x.book_id == book_id)

/-! ## Spec-modelled operations

The repository's source under src/ contains only the schema and the
upsert statement builder; the book-deletion routine and the
learning-progress transitions live outside it.  They are modelled here
from the spec's words. -/

/-- The tables touched by book deletion. -/
structure DBState where
  books : List BookRow
  chapters : List ChapterRow
  book_vocab : List BookVocabRow
  book_totals : List BookTotalsRow
deriving DecidableEq, Repr

/-- Modelled from the spec: the book-deletion routine is not in src/.
Spec §9: "Cascading deletion on book removal (chapters, book_vocab) →
implement as an explicit transactional delete that removes dependent rows
before or alongside the parent"; §3: BookVocabEntry rows are "deleted
entirely when the book is deleted" and BookTotals is a book-owned cache
(its column carries `ondelete="CASCADE"` in the schema).  One transaction
removes the book row together with its chapters, book_vocab rows and
book_totals row. -/
def deleteBook (s : DBState) (book_id : Int) : DBState :=
  { books := s.books.filter (fun x => x.id != book_id)
    chapters := s.chapters.filter (fun x => x.book_id != book_id)
    book_vocab := s.book_vocab.filter (fun x => x.book_id != book_id)
    book_totals := s.book_totals.filter (fun x => x.book_id != book_id) }

/-- Modelled from the spec: the learning-progress transition
`advance(tokenId)` is not in src/.  Spec §4.5: "`advance(tokenId)`: valid
only from `LEARNING`; increments stage by 1, capped at 5" (the cap is the
schema's `NUM_LEARNING_STAGES`).  `none` is the rejection of a call from
a state other than LEARNING (or from a LEARNING row whose stage is
absent, which §3's invariant rules out). -/
def advanceRow (r : TokenProgressRow) : Option TokenProgressRow :=
  if r.status = LearningStatus.LEARNING.value then
    match r.learning_stage with
    | some s => some { r with learning_stage := some (min (s + 1) NUM_LEARNING_STAGES) }
    | none => none
  else none

/-! ## Invariants and theorems -/

/-- What the schema's two CHECK constraints actually accept on a
token_progress row: a legal status code, and — only when the status is
LEARNING and the stage is present — a stage in 1..5.  A NULL stage passes
the second constraint even in the LEARNING state, and a non-LEARNING
status places no condition on the stage at all. -/
def tokenProgressInvariant (r : TokenProgressRow) : Prop :=
  (r.status = 1 ∨ r.status = 2 ∨ r.status = 3) ∧
  (r.status = 1 → r.learning_stage = none ∨
      ∃ s, r.learning_stage = some s ∧ 1 ≤ s ∧ s ≤ 5)

theorem tokenProgressRowOk_iff (r : TokenProgressRow) :
    tokenProgressRowOk r = true ↔ tokenProgressInvariant r := by
  obtain ⟨tid, st, stg, tr⟩ := r
  simp only [tokenProgressRowOk, tokenProgressInvariant, checkPasses,
    ck_token_progress_status_valid, ck_token_progress_learning_stage_valid,
    sqlBetween, Bool.and_eq_true]
  cases stg with
  | none =>
      by_cases h1 : st = 1 <;> simp [sqlOr, h1, Option.map]
  | some s =>
      by_cases h1 : st = 1 <;> by_cases h2 : 1 ≤ s ∧ s ≤ 5 <;>
        simp [sqlOr, h1, h2, Option.map]

/-- C1, as stated, is false on the schema: a token_progress row with
status = KNOWN (code 2) and a non-null learning_stage satisfies both
CHECK constraints and commits, so learning_stage being non-null does not
imply status = LEARNING. -/
theorem C1_counterexample :
    insertTokenProgress []
        (⟨1, LearningStatus.KNOWN.value, some 3, none⟩ : TokenProgressRow) =
      some [(⟨1, LearningStatus.KNOWN.value, some 3, none⟩ : TokenProgressRow)] ∧
    (⟨1, LearningStatus.KNOWN.value, some 3, none⟩ : TokenProgressRow).learning_stage ≠
      none ∧
    (⟨1, LearningStatus.KNOWN.value, some 3, none⟩ : TokenProgressRow).status ≠
      LearningStatus.LEARNING.value := by
  decide

/-- C1 (amended): every row committed by an insert or update into
token_progress has status in 1..3, and when status = LEARNING its
learning_stage is either null or in 1..5; the schema enforces nothing
about learning_stage when status ≠ LEARNING, and does not force the stage
to be present when status = LEARNING. -/
theorem C1_amended_thm :
    (∀ (tbl : List TokenProgressRow) (r : TokenProgressRow)
        (tbl2 : List TokenProgressRow),
      insertTokenProgress tbl r = some tbl2 →
      (∀ x ∈ tbl, tokenProgressInvariant x) →
      ∀ x ∈ tbl2, tokenProgressInvariant x) ∧
    (∀ (tbl : List TokenProgressRow) (token_id status : Int)
        (stage : Option Int) (tr : Option String)
        (tbl2 : List TokenProgressRow),
      updateTokenProgress tbl token_id status stage tr = some tbl2 →
      (∀ x ∈ tbl, tokenProgressInvariant x) →
      ∀ x ∈ tbl2, tokenProgressInvariant x) := by
  constructor
  · intro tbl r tbl2 hins hold x hx
    unfold insertTokenProgress at hins
    by_cases hc : (tokenProgressRowOk r && tbl.all (fun x => x.token_id != r.token_id)) = true
    · rw [if_pos hc] at hins
      obtain rfl : tbl ++ [r] = tbl2 := Option.some.inj hins
      rcases List.mem_append.mp hx with hmem | hmem
      · exact hold x hmem
      · rw [List.mem_singleton.mp hmem]
        rw [Bool.and_eq_true] at hc
        exact (tokenProgressRowOk_iff r).mp hc.1
    · rw [if_neg hc] at hins
      exact absurd hins (by simp)
  · intro tbl token_id status stage tr tbl2 hupd hold x hx
    unfold updateTokenProgress at hupd
    by_cases hc : (tbl.all (fun x =>
        x.token_id != token_id ||
        tokenProgressRowOk (setProgressCols status stage tr x))) = true
    · rw [if_pos hc] at hupd
      obtain rfl := Option.some.inj hupd
      rcases List.mem_map.mp hx with ⟨z, hz, hzx⟩
      by_cases hk : (z.token_id == token_id) = true
      · rw [if_pos hk] at hzx
        have hall := (List.all_eq_true.mp hc) z hz
        rw [Bool.or_eq_true] at hall
        rcases hall with hbad | hok
        · exact absurd hk (by simpa using hbad)
        · rw [← hzx]
          exact (tokenProgressRowOk_iff _).mp hok
      · rw [if_neg hk] at hzx
        rw [← hzx]
        exact hold z hz
    · rw [if_neg hc] at hupd
      exact absurd hupd (by simp)

/-- C1 (amended) witnessed on concrete data: a fresh LEARNING row at
stage 1 inserted into the empty table, and an update of that row to
KNOWN, both commit rows satisfying the amended invariant. -/
theorem C1_amended_witness :
    tokenProgressInvariant (⟨1, 1, some 1, none⟩ : TokenProgressRow) ∧
    tokenProgressInvariant (⟨1, 2, none, none⟩ : TokenProgressRow) := by
  constructor
  · exact C1_amended_thm.1 [] ⟨1, 1, some 1, none⟩ [⟨1, 1, some 1, none⟩]
      (by decide) (by intro x hx; cases hx) _ (by simp)
  · exact C1_amended_thm.2 [⟨1, 1, some 1, none⟩] 1 2 none none
      [⟨1, 2, none, none⟩] (by decide)
      (by intro x hx
          rw [List.mem_singleton.mp hx]
          exact ⟨Or.inl rfl, fun _ => Or.inr ⟨1, rfl, le_refl 1, by norm_num⟩⟩)
      _ (by simp)

/-- C2, as stated, is false on the schema: `book_vocab` carries no CHECK
constraint, so a row with token_count = 0 commits. -/
theorem C2_counterexample :
    insertBookVocab [] (⟨1, 1, 0⟩ : BookVocabRow) =
      some [(⟨1, 1, 0⟩ : BookVocabRow)] ∧
    ¬ (0 : Int) > 0 := by
  decide

/-- C2 (amended): book_vocab rows always carry a (non-null) token_count
and are unique per (book_id, token_id), but the schema places no
constraint on the value of token_count: an insert with any token_count,
including one ≤ 0, commits whenever the key pair is fresh. -/
theorem C2_amended_thm (tbl : List BookVocabRow) (r : BookVocabRow)
    (h : ∀ x ∈ tbl, ¬(x.book_id = r.book_id ∧ x.token_id = r.token_id)) :
    insertBookVocab tbl r = some (tbl ++ [r]) := by
  unfold insertBookVocab
  rw [if_pos]
  rw [List.all_eq_true]
  intro x hx
  simp only [Bool.not_eq_true', Bool.and_eq_false_iff, beq_eq_false_iff_ne, ne_eq]
  by_cases hb : x.book_id = r.book_id
  · exact Or.inr (fun ht => h x hx ⟨hb, ht⟩)
  · exact Or.inl hb

/-- C2 (amended) witnessed: a row with token_count = -4 commits into a
table that already holds an unrelated row. -/
theorem C2_amended_witness :
    insertBookVocab [(⟨1, 1, 5⟩ : BookVocabRow)] (⟨1, 2, -4⟩ : BookVocabRow) =
      some [(⟨1, 1, 5⟩ : BookVocabRow), (⟨1, 2, -4⟩ : BookVocabRow)] :=
  C2_amended_thm [⟨1, 1, 5⟩] ⟨1, 2, -4⟩ (by decide)

theorem lookupTotals_upsert_self (tbl : List BookTotalsRow) (b t y : Int) :
    lookupTotals (upsertBookTotals tbl b t y) b =
      some (⟨b, t, y⟩ : BookTotalsRow) := by
  induction tbl with
  | nil => simp [upsertBookTotals, lookupTotals]
  | cons x xs ih =>
      by_cases h : x.book_id = b
      · simp [upsertBookTotals, h, lookupTotals]
      · simpa [upsertBookTotals, h, lookupTotals] using ih

theorem lookupTotals_upsert_other (tbl : List BookTotalsRow) (b t y b2 : Int)
    (hne : b2 ≠ b) :
    lookupTotals (upsertBookTotals tbl b t y) b2 = lookupTotals tbl b2 := by
  induction tbl with
  | nil => simp [upsertBookTotals, lookupTotals, Ne.symm hne]
  | cons x xs ih =>
      by_cases h : x.book_id = b
      · have hx : x.book_id ≠ b2 := h ▸ Ne.symm hne
        simp [upsertBookTotals, h, lookupTotals, Ne.symm hne, hx]
      · by_cases h2 : x.book_id = b2
        · simp [upsertBookTotals, h, lookupTotals, h2, hne]
        · simpa [upsertBookTotals, h, lookupTotals, h2] using ih

/-- C3: executing the statement built by `BookTotals.upsert_stmt` leaves
the targeted book's totals row equal to the given values — appending a
fresh row when none existed — and leaves every other book's row exactly
as it was. -/
theorem C3_upsert_stmt_thm (tbl : List BookTotalsRow) (b t y : Int) :
    lookupTotals (upsertBookTotals tbl b t y) b =
      some (⟨b, t, y⟩ : BookTotalsRow) ∧
    (∀ b2, b2 ≠ b →
      lookupTotals (upsertBookTotals tbl b t y) b2 = lookupTotals tbl b2) ∧
    ((∀ x ∈ tbl, x.book_id ≠ b) →
      upsertBookTotals tbl b t y = tbl ++ [(⟨b, t, y⟩ : BookTotalsRow)]) := by
  refine ⟨lookupTotals_upsert_self tbl b t y,
          fun b2 hne => lookupTotals_upsert_other tbl b t y b2 hne, ?_⟩
  intro habs
  induction tbl with
  | nil => simp [upsertBookTotals]
  | cons x xs ih =>
      have hx : x.book_id ≠ b := habs x (List.mem_cons_self x xs)
      have ih2 := ih (fun z hz => habs z (List.mem_cons_of_mem x hz))
      simp [upsertBookTotals, hx, ih2]

/-- C3 witnessed: upserting totals (2, 3) for book 1 into the empty table
appends the row, and book 5 still has no row. -/
theorem C3_upsert_stmt_witness :
    lookupTotals (upsertBookTotals [] 1 2 3) 1 = some (⟨1, 2, 3⟩ : BookTotalsRow) ∧
    lookupTotals (upsertBookTotals [] 1 2 3) 5 = lookupTotals [] 5 ∧
    upsertBookTotals [] 1 2 3 = [] ++ [(⟨1, 2, 3⟩ : BookTotalsRow)] := by
  refine ⟨(C3_upsert_stmt_thm [] 1 2 3).1,
          (C3_upsert_stmt_thm [] 1 2 3).2.1 5 (by decide),
          (C3_upsert_stmt_thm [] 1 2 3).2.2 (by intro x hx; cases hx)⟩

/-- C4: executing the statement built by `BookTotals.upsert_stmt` twice
with the same arguments produces exactly the table state a single
execution produces. -/
theorem C4_upsert_idempotent (tbl : List BookTotalsRow) (b t y : Int) :
    upsertBookTotals (upsertBookTotals tbl b t y) b t y =
      upsertBookTotals tbl b t y := by
  induction tbl with
  | nil => simp [upsertBookTotals]
  | cons x xs ih =>
      by_cases h : x.book_id = b
      · simp [upsertBookTotals, h]
      · simp [upsertBookTotals, h, ih]

/-- No two rows of a tokens table collide on the unique index
`ix_token_language_id_norm`. -/
def tokensUnique (tbl : List TokenRow) : Prop :=
  List.Pairwise (fun a c => ¬(a.language_id = c.language_id ∧ a.norm = c.norm)) tbl

/-- No two rows of a chapters table collide on the unique index
`ix_chapter_book_id_chapter_number`. -/
def chaptersUnique (tbl : List ChapterRow) : Prop :=
  List.Pairwise (fun a c => ¬(a.book_id = c.book_id ∧ a.chapter_number = c.chapter_number)) tbl

/-- C5: inserting a token that duplicates an existing row's
(language_id, norm) fails, and any successful insert preserves the
property that no two rows share (language_id, norm). -/
theorem C5_token_norm_unique (tbl : List TokenRow) (r : TokenRow) :
    ((∃ x ∈ tbl, x.language_id = r.language_id ∧ x.norm = r.norm) →
      insertToken tbl r = none) ∧
    (∀ tbl2, insertToken tbl r = some tbl2 → tokensUnique tbl → tokensUnique tbl2) := by
  constructor
  · rintro ⟨x, hx, hlang, hnorm⟩
    unfold insertToken
    rw [if_neg]
    intro hc
    rw [Bool.and_eq_true, Bool.and_eq_true] at hc
    have := List.all_eq_true.mp hc.2 x hx
    simp [hlang, hnorm] at this
  · intro tbl2 hins huniq
    unfold insertToken at hins
    by_cases hc : (tokenRowOk r && tbl.all (fun x => x.id != r.id)
        && tbl.all (fun x => !(x.language_id == r.language_id && x.norm == r.norm))) = true
    · rw [if_pos hc] at hins
      obtain rfl := Option.some.inj hins
      rw [Bool.and_eq_true, Bool.and_eq_true] at hc
      unfold tokensUnique
      rw [List.pairwise_append]
      refine ⟨huniq, List.pairwise_singleton _ _, ?_⟩
      intro a ha c hcm
      rw [List.mem_singleton.mp hcm]
      have := List.all_eq_true.mp hc.2 a ha
      simp only [Bool.not_eq_true', Bool.and_eq_false_iff, beq_eq_false_iff_ne, ne_eq] at this
      rintro ⟨h1, h2⟩
      rcases this with hb | hb <;> exact hb (by assumption)
    · rw [if_neg hc] at hins
      exact absurd hins (by simp)

/-- C5 witnessed: a duplicate of ("a", language 7) is rejected, and a
successful insert of a distinct norm keeps the table duplicate-free. -/
theorem C5_token_norm_unique_witness :
    insertToken [(⟨1, 7, "a", 1⟩ : TokenRow)] (⟨2, 7, "a", 1⟩ : TokenRow) = none ∧
    tokensUnique [(⟨1, 7, "a", 1⟩ : TokenRow), (⟨2, 7, "b", 1⟩ : TokenRow)] := by
  constructor
  · exact (C5_token_norm_unique [⟨1, 7, "a", 1⟩] ⟨2, 7, "a", 1⟩).1
      ⟨⟨1, 7, "a", 1⟩, by simp, rfl, rfl⟩
  · exact (C5_token_norm_unique [⟨1, 7, "a", 1⟩] ⟨2, 7, "b", 1⟩).2
      [⟨1, 7, "a", 1⟩, ⟨2, 7, "b", 1⟩] (by decide)
      (List.pairwise_singleton _ _)

/-- C9: inserting a chapter that duplicates an existing row's
(book_id, chapter_number) fails, and any successful insert preserves the
property that no two rows share (book_id, chapter_number). -/
theorem C9_chapter_number_unique (tbl : List ChapterRow) (r : ChapterRow) :
    ((∃ x ∈ tbl, x.book_id = r.book_id ∧ x.chapter_number = r.chapter_number) →
      insertChapter tbl r = none) ∧
    (∀ tbl2, insertChapter tbl r = some tbl2 → chaptersUnique tbl → chaptersUnique tbl2) := by
  constructor
  · rintro ⟨x, hx, hb, hn⟩
    unfold insertChapter
    rw [if_neg]
    intro hc
    rw [Bool.and_eq_true] at hc
    have := List.all_eq_true.mp hc.2 x hx
    simp [hb, hn] at this
  · intro tbl2 hins huniq
    unfold insertChapter at hins
    by_cases hc : (tbl.all (fun x => x.id != r.id)
        && tbl.all (fun x => !(x.book_id == r.book_id && x.chapter_number == r.chapter_number))) = true
    · rw [if_pos hc] at hins
      obtain rfl := Option.some.inj hins
      rw [Bool.and_eq_true] at hc
      unfold chaptersUnique
      rw [List.pairwise_append]
      refine ⟨huniq, List.pairwise_singleton _ _, ?_⟩
      intro a ha c hcm
      rw [List.mem_singleton.mp hcm]
      have := List.all_eq_true.mp hc.2 a ha
      simp only [Bool.not_eq_true', Bool.and_eq_false_iff, beq_eq_false_iff_ne, ne_eq] at this
      rintro ⟨h1, h2⟩
      rcases this with hb | hb <;> exact hb (by assumption)
    · rw [if_neg hc] at hins
      exact absurd hins (by simp)

/-- C9 witnessed: a second chapter numbered 1 of book 3 is rejected, and
inserting chapter 2 succeeds and keeps the numbers distinct. -/
theorem C9_chapter_number_unique_witness :
    insertChapter [(⟨1, 3, 1, "x", 1⟩ : ChapterRow)] (⟨2, 3, 1, "y", 1⟩ : ChapterRow) = none ∧
    chaptersUnique [(⟨1, 3, 1, "x", 1⟩ : ChapterRow), (⟨2, 3, 2, "y", 1⟩ : ChapterRow)] := by
  constructor
  · exact (C9_chapter_number_unique [⟨1, 3, 1, "x", 1⟩] ⟨2, 3, 1, "y", 1⟩).1
      ⟨⟨1, 3, 1, "x", 1⟩, by simp, rfl, rfl⟩
  · exact (C9_chapter_number_unique [⟨1, 3, 1, "x", 1⟩] ⟨2, 3, 2, "y", 1⟩).2
      [⟨1, 3, 1, "x", 1⟩, ⟨2, 3, 2, "y", 1⟩] (by decide)
      (List.pairwise_singleton _ _)

/-- C6: book deletion removes every book_vocab row of the deleted book,
and when every book_vocab row referenced an existing book beforehand,
the same holds afterwards — no row is left pointing at the deleted
book. -/
theorem C6_cascade_delete (s : DBState) (b : Int) :
    (∀ x ∈ (deleteBook s b).book_vocab, x.book_id ≠ b) ∧
    ((∀ x ∈ s.book_vocab, ∃ bk ∈ s.books, bk.id = x.book_id) →
      ∀ x ∈ (deleteBook s b).book_vocab,
        ∃ bk ∈ (deleteBook s b).books, bk.id = x.book_id) := by
  constructor
  · intro x hx
    have := List.of_mem_filter hx
    simpa using this
  · intro href x hx
    have hmem : x ∈ s.book_vocab := List.mem_of_mem_filter hx
    have hne : x.book_id ≠ b := by simpa using List.of_mem_filter hx
    obtain ⟨bk, hbk, hid⟩ := href x hmem
    refine ⟨bk, ?_, hid⟩
    apply List.mem_filter.mpr
    refine ⟨hbk, ?_⟩
    simp [hid, hne]

/-- C6 witnessed: deleting book 1 from a two-book state removes its vocab
row; the surviving row belongs to book 2, which still exists. -/
theorem C6_cascade_delete_witness :
    (⟨2, 1, 4⟩ : BookVocabRow).book_id ≠ 1 ∧
    ∃ bk ∈ (deleteBook
        ⟨[⟨1, 1, "a", none, none, false, none, none, none⟩,
          ⟨2, 1, "b", none, none, false, none, none, none⟩],
         [], [⟨1, 1, 3⟩, ⟨2, 1, 4⟩], []⟩ 1).books,
      bk.id = (⟨2, 1, 4⟩ : BookVocabRow).book_id := by
  constructor
  · exact (C6_cascade_delete
      ⟨[⟨1, 1, "a", none, none, false, none, none, none⟩,
        ⟨2, 1, "b", none, none, false, none, none, none⟩],
       [], [⟨1, 1, 3⟩, ⟨2, 1, 4⟩], []⟩ 1).1 ⟨2, 1, 4⟩ (by decide)
  · exact (C6_cascade_delete
      ⟨[⟨1, 1, "a", none, none, false, none, none, none⟩,
        ⟨2, 1, "b", none, none, false, none, none, none⟩],
       [], [⟨1, 1, 3⟩, ⟨2, 1, 4⟩], []⟩ 1).2 (by decide) ⟨2, 1, 4⟩ (by decide)

/-- C7: `advance` is rejected from every non-LEARNING state; from a
LEARNING row it bumps the stage by one, capped at NUM_LEARNING_STAGES;
concretely, five advances from stage 1 reach stage 5 and a sixth advance
succeeds and leaves the stage at 5. -/
theorem C7_advance_thm :
    ((((((some (⟨1, 1, some 1, none⟩ : TokenProgressRow)).bind advanceRow).bind
        advanceRow).bind advanceRow).bind advanceRow).bind advanceRow =
      some (⟨1, 1, some 5, none⟩ : TokenProgressRow)) ∧
    (advanceRow (⟨1, 1, some 5, none⟩ : TokenProgressRow) =
      some (⟨1, 1, some 5, none⟩ : TokenProgressRow)) ∧
    (∀ (tid s : Int) (tr : Option String),
      advanceRow ⟨tid, 1, some s, tr⟩ =
        some ⟨tid, 1, some (min (s + 1) NUM_LEARNING_STAGES), tr⟩) ∧
    (∀ (tid : Int) (stg : Option Int) (tr : Option String),
      advanceRow ⟨tid, LearningStatus.KNOWN.value, stg, tr⟩ = none) ∧
    (∀ (tid : Int) (stg : Option Int) (tr : Option String),
      advanceRow ⟨tid, LearningStatus.IGNORE.value, stg, tr⟩ = none) := by
  refine ⟨by decide, by decide, ?_, ?_, ?_⟩
  · intro tid s tr
    simp [advanceRow, LearningStatus.value]
  · intro tid stg tr
    simp [advanceRow, LearningStatus.value]
  · intro tid stg tr
    simp [advanceRow, LearningStatus.value]

/-- C8: an insert into tokens with a kind code outside the legal set
{1, 2}, and an insert into token_progress with a status code outside the
legal set {1, 2, 3}, are both rejected by the CHECK constraints with the
table left untouched. -/
theorem C8_enum_validation (tblT : List TokenRow) (r : TokenRow)
    (tblP : List TokenProgressRow) (p : TokenProgressRow) :
    (r.kind ≠ 1 ∧ r.kind ≠ 2 → insertToken tblT r = none) ∧
    (p.status ≠ 1 ∧ p.status ≠ 2 ∧ p.status ≠ 3 →
      insertTokenProgress tblP p = none) := by
  constructor
  · intro h
    have hk : tokenRowOk r = false := by
      simp [tokenRowOk, checkPasses, ck_token_kind_valid, h.1, h.2]
    simp [insertToken, hk]
  · intro h
    have hs : tokenProgressRowOk p = false := by
      simp [tokenProgressRowOk, checkPasses, ck_token_progress_status_valid,
        h.1, h.2.1, h.2.2]
    simp [insertTokenProgress, hs]

/-- C8 witnessed: kind 7 and status 9 are both rejected on the empty
tables. -/
theorem C8_enum_validation_witness :
    insertToken [] (⟨1, 1, "a", 7⟩ : TokenRow) = none ∧
    insertTokenProgress [] (⟨1, 9, none, none⟩ : TokenProgressRow) = none := by
  constructor
  · exact (C8_enum_validation [] ⟨1, 1, "a", 7⟩ [] ⟨1, 9, none, none⟩).1
      (by decide)
  · exact (C8_enum_validation [] ⟨1, 1, "a", 7⟩ [] ⟨1, 9, none, none⟩).2
      (by decide)

/-- C10: an insert into tokens that leaves `kind` to its server-side
default commits a row whose kind is TokenKind.WORD's code (1). -/
theorem C10_default_kind (tbl : List TokenRow) (id language_id : Int)
    (norm : String) (tbl2 : List TokenRow)
    (h : insertTokenDefaultKind tbl id language_id norm = some tbl2) :
    tbl2 = tbl ++ [(⟨id, language_id, norm, TokenKind.WORD.value⟩ : TokenRow)] := by
  unfold insertTokenDefaultKind insertToken Token.kind_server_default at h
  by_cases hc : (tokenRowOk ⟨id, language_id, norm, TokenKind.WORD.value⟩
      && tbl.all (fun x => x.id != id)
      && tbl.all (fun x => !(x.language_id == language_id && x.norm == norm))) = true
  · rw [if_pos hc] at h
    exact (Option.some.inj h).symm
  · rw [if_neg hc] at h
    exact absurd h (by simp)

/-- C10 witnessed: the default-kind insert of norm "a" into the empty
table creates the row with kind 1 = WORD. -/
theorem C10_default_kind_witness :
    [(⟨1, 1, "a", 1⟩ : TokenRow)] =
      [] ++ [(⟨1, 1, "a", TokenKind.WORD.value⟩ : TokenRow)] :=
  C10_default_kind [] 1 1 "a" [⟨1, 1, "a", 1⟩] (by decide)
